import Mathlib

/-
Verification development for the procedural desert terrain core:
heightfield generation (simplex-style noise, dune stamping), interpolated
height queries, spatial-hash collision indexing and collision queries.

The JavaScript sources are embedded shallowly:
 - machine floats are modelled as rationals (ℚ) where the code is exact
   arithmetic and comparisons, and as reals (ℝ) where the code takes
   square roots or trigonometric functions;
 - `undefined`-propagation through arithmetic is modelled by the `JSNum`
   type (a rational or NaN);
 - the mutable heightmap arrays are modelled as functions ℤ → ℤ → value,
   and the spatial-hash `Map` as a function from integer cell pairs to
   `Option (List Obst)` (`none` = key absent).
-/

/-- Floor of a rational, via the executable `Rat.floor`, modelling
JavaScript `Math.floor` on exact values. -/
def qfloor (q : ℚ) : ℤ := q.floor

/-- A JavaScript number: either an actual (rational) value or NaN. -/
inductive JSNum where
  | num : ℚ → JSNum
  | nan : JSNum
  deriving DecidableEq, Repr

/-- JavaScript addition: NaN propagates through `+`. -/
def JSNum.add : JSNum → JSNum → JSNum
  | JSNum.num a, JSNum.num b => JSNum.num (a + b)
  | _, _ => JSNum.nan

/-- JavaScript multiplication by an actual number: NaN propagates through `*`. -/
def JSNum.mulq : JSNum → ℚ → JSNum
  | JSNum.num a, b => JSNum.num (a * b)
  | JSNum.nan, _ => JSNum.nan

/-- JavaScript multiplication of a number by a possibly-undefined value:
`x * undefined` evaluates to NaN. -/
def jsMulOpt (a : ℚ) : Option ℚ → JSNum
  | some m => JSNum.num (a * m)
  | none => JSNum.nan

/-- The normalized grid-space coordinate `(x + terrainSize/2) / terrainSize`
computed by both height queries. -/
def normCoord (ts x : ℚ) : ℚ := (x + ts / 2) / ts

/-- The bounds check of both height queries: the query is out of bounds when a
normalized coordinate is below 0 or above 1. -/
def outB (ts x z : ℚ) : Prop :=
  normCoord ts x < 0 ∨ normCoord ts x > 1 ∨ normCoord ts z < 0 ∨ normCoord ts z > 1

instance (ts x z : ℚ) : Decidable (outB ts x z) := by
  unfold outB; infer_instance

/-- Corner index of CollisionSystem.getHeightAt:
`Math.min(Math.floor(n * (resolution - 1)), resolution - 2)`. -/
def collIx (ts : ℚ) (res : ℤ) (x : ℚ) : ℤ :=
  min (qfloor (normCoord ts x * ((res : ℚ) - 1))) (res - 2)

/-- Fractional offset of CollisionSystem.getHeightAt:
`n * (resolution - 1) - index`. -/
def collFrac (ts : ℚ) (res : ℤ) (x : ℚ) : ℚ :=
  normCoord ts x * ((res : ℚ) - 1) - (collIx ts res x : ℚ)

/-- CollisionSystem.getHeightAt (src/js/environment/particles.js, lines 371-406):
normalize the world coordinates, return 0 outside the bounds, otherwise clamp the
corner indices and bilinearly interpolate the four corner values, each corner value
being the stored height multiplied by `TerrainSystem.maxHeight` (passed here as the
`mh : Option ℚ` argument because that property read can yield `undefined`). The
`heightData` array is modelled by `data` together with its length `res`; the guard
`if (!heightData) return 0` is not modelled (the system is taken as initialized). -/
def collGetHeightAt (ts : ℚ) (res : ℤ) (data : ℤ → ℤ → ℚ) (mh : Option ℚ)
    (x z : ℚ) : JSNum :=
  if outB ts x z then JSNum.num 0
  else
    let ix := collIx ts res x
    let iz := collIx ts res z
    let fx := collFrac ts res x
    let fz := collFrac ts res z
    let h1 := jsMulOpt (data iz ix) mh
    let h2 := jsMulOpt (data iz (ix + 1)) mh
    let h3 := jsMulOpt (data (iz + 1) ix) mh
    let h4 := jsMulOpt (data (iz + 1) (ix + 1)) mh
    let h12 := (h1.mulq (1 - fx)).add (h2.mulq fx)
    let h34 := (h3.mulq (1 - fx)).add (h4.mulq fx)
    (h12.mulq (1 - fz)).add (h34.mulq fz)

/-- The TerrainSystem module object (src/unnamed/part_002, lines 207-212) returns only
`{ init, getHeightAt }`: it has no `maxHeight` property, so the property read
`TerrainSystem.maxHeight` performed by CollisionSystem.getHeightAt evaluates to
`undefined`, modelled as `none`. -/
def terrainPublicMaxHeight : Option ℚ := none

/-- Grid index of TerrainSystem.getHeightAt:
`Math.min(terrainResolution - 1, Math.floor(n * terrainResolution))`. -/
def terrIx (res : ℤ) (n : ℚ) : ℤ := min (res - 1) (qfloor (n * (res : ℚ)))

/-- TerrainSystem.getHeightAt (src/unnamed/part_002, lines 159-177): normalize, return 0
outside the bounds, otherwise return the single nearest (floored, clamped) cell's stored
height times the module-private `maxHeight` (`mh`, the number 20 in the module). -/
def terrainGetHeightAt (ts : ℚ) (res : ℤ) (data : ℤ → ℤ → ℚ) (mh : ℚ)
    (x z : ℚ) : ℚ :=
  if outB ts x z then 0
  else data (terrIx res (normCoord ts z)) (terrIx res (normCoord ts x)) * mh

/-- Modelled from the spec: `heightAt` maps world coordinates to normalized grid space,
returns the default 0 outside the bounds, and otherwise returns the bilinear
interpolation of the four surrounding corner heights (each scaled by the height scale
factor `m`) using the fractional offsets within the containing grid cell. -/
def bilinearHeightAt (ts : ℚ) (res : ℤ) (data : ℤ → ℤ → ℚ) (m : ℚ)
    (x z : ℚ) : ℚ :=
  if outB ts x z then 0
  else
    let ix := collIx ts res x
    let iz := collIx ts res z
    let fx := collFrac ts res x
    let fz := collFrac ts res z
    let h1 := data iz ix * m
    let h2 := data iz (ix + 1) * m
    let h3 := data (iz + 1) ix * m
    let h4 := data (iz + 1) (ix + 1) * m
    (h1 * (1 - fx) + h2 * fx) * (1 - fz) + (h3 * (1 - fx) + h4 * fx) * fz

/-- A 2x2 height grid with value 4 in the column of index 1 and 0 elsewhere,
used as concrete test data. -/
def dataStep : ℤ → ℤ → ℚ := fun _ x => if x = 1 then 4 else 0

/-- A registered collision obstacle: the horizontal components of the position snapshot
taken by addCollisionObject at insertion, and the bounding radius. -/
structure Obst where
  x : ℚ
  z : ℚ
  r : ℚ
  deriving DecidableEq, Repr

/-- The spatial grid cell size: `const gridSize = 10`. -/
def gridSize : ℚ := 10

/-- The CollisionSystem module state: the terrain data stored by `init`, the list of
registered collision objects, and the spatial grid `Map` (a bucket list per integer
cell pair, `none` when the key is absent). -/
structure CState where
  terrainSize : ℚ
  res : ℤ
  data : ℤ → ℤ → ℚ
  maxH : Option ℚ
  objects : List Obst
  grid : ℤ × ℤ → Option (List Obst)

/-- The cell bound `Math.floor((pos.x - r + terrainSize/2) / gridSize)` of addToGrid. -/
def minCellX (ts : ℚ) (o : Obst) : ℤ := qfloor ((o.x - o.r + ts / 2) / gridSize)

/-- The cell bound `Math.floor((pos.x + r + terrainSize/2) / gridSize)` of addToGrid. -/
def maxCellX (ts : ℚ) (o : Obst) : ℤ := qfloor ((o.x + o.r + ts / 2) / gridSize)

/-- The cell bound `Math.floor((pos.z - r + terrainSize/2) / gridSize)` of addToGrid. -/
def minCellZ (ts : ℚ) (o : Obst) : ℤ := qfloor ((o.z - o.r + ts / 2) / gridSize)

/-- The cell bound `Math.floor((pos.z + r + terrainSize/2) / gridSize)` of addToGrid. -/
def maxCellZ (ts : ℚ) (o : Obst) : ℤ := qfloor ((o.z + o.r + ts / 2) / gridSize)

/-- The rectangle of cells the addToGrid double loop registers an obstacle into. -/
def covers (ts : ℚ) (o : Obst) (c : ℤ × ℤ) : Prop :=
  minCellX ts o ≤ c.1 ∧ c.1 ≤ maxCellX ts o ∧ minCellZ ts o ≤ c.2 ∧ c.2 ≤ maxCellZ ts o

instance (ts : ℚ) (o : Obst) (c : ℤ × ℤ) : Decidable (covers ts o c) := by
  unfold covers; infer_instance

/-- addToGrid (src/js/environment/particles.js, lines 293-315), stated pointwise over
the cell map: each cell of the covered rectangle gets its bucket created if absent and
the obstacle pushed at the end; all other cells are untouched. -/
def addToGrid (s : CState) (o : Obst) : CState :=
  { s with grid := fun c =>
      if covers s.terrainSize o c then some ((s.grid c).getD [] ++ [o])
      else s.grid c }

/-- addCollisionObject (lines 275-290): push the collision data onto the object list,
then register it in the spatial grid. -/
def addCollisionObject (s : CState) (o : Obst) : CState :=
  addToGrid { s with objects := s.objects ++ [o] } o

/-- The state right after `init`: terrain data stored, no objects, empty grid `Map`. -/
def initCState (ts : ℚ) (res : ℤ) (data : ℤ → ℤ → ℚ) (mh : Option ℚ) : CState :=
  ⟨ts, res, data, mh, [], fun _ => none⟩

/-- The module state after registering a list of obstacles in order. -/
def buildState (ts : ℚ) (res : ℤ) (data : ℤ → ℤ → ℚ) (mh : Option ℚ)
    (objs : List Obst) : CState :=
  objs.foldl addCollisionObject (initCState ts res data mh)

/-- The query cell of checkCollision:
`Math.floor((position + terrainSize/2) / gridSize)`. -/
def queryCell (ts : ℚ) (p : ℚ) : ℤ := qfloor ((p + ts / 2) / gridSize)

/-- The 3x3 block of cells scanned by getNearbyObjects, x outer and z inner as in the
code's loops. -/
def cells3x3 (cx cz : ℤ) : List (ℤ × ℤ) :=
  [(cx - 1, cz - 1), (cx - 1, cz), (cx - 1, cz + 1),
   (cx, cz - 1), (cx, cz), (cx, cz + 1),
   (cx + 1, cz - 1), (cx + 1, cz), (cx + 1, cz + 1)]

/-- getNearbyObjects (lines 353-368): concatenate the buckets of the 3x3 block of
cells around the query cell (missing keys contribute nothing); duplicates from
obstacles spanning several cells remain, as in the code. -/
def getNearbyObjects (s : CState) (cx cz : ℤ) : List Obst :=
  (cells3x3 cx cz).flatMap fun c => (s.grid c).getD []

/-- The collision test of checkCollision on one candidate: the code computes
`distance = Math.sqrt(dx*dx + dz*dz)` and tests `distance < radius + obj.radius`.
On exact values this is equivalent to the executable squared comparison used here,
see `collides_iff_sqrt`. -/
def collides (px pz r : ℚ) (o : Obst) : Bool :=
  decide (0 ≤ r + o.r ∧ (px - o.x) ^ 2 + (pz - o.z) ^ 2 < (r + o.r) ^ 2)

/-- The record checkCollision returns; the separation normal and penetration depth the
code computes from the hit obstacle are modelled by `reportedNormal` and
`reportedPenetration`. -/
structure CollisionResult where
  collision : Bool
  hit : Option Obst
  terrainY : JSNum
  deriving DecidableEq, Repr

/-- CollisionSystem.checkCollision (lines 318-350): resolve the terrain height at the
query position, gather candidates from the 3x3 block of cells around the query cell,
and report a collision with the first candidate whose planar distance is below the
radius sum, or no collision (terrain height still populated) otherwise. -/
def checkCollision (s : CState) (px pz r : ℚ) : CollisionResult :=
  let terrainY := collGetHeightAt s.terrainSize s.res s.data s.maxH px pz
  let nearby := getNearbyObjects s (queryCell s.terrainSize px) (queryCell s.terrainSize pz)
  match nearby.find? (fun o => collides px pz r o) with
  | some o => ⟨true, some o, terrainY⟩
  | none => ⟨false, none, terrainY⟩

/-- The bucket list of a cell (empty when the key is absent). -/
def bucket (s : CState) (c : ℤ × ℤ) : List Obst := (s.grid c).getD []

/-- The planar length `Math.sqrt(dx*dx + dz*dz)` computed by checkCollision. -/
noncomputable def planarLen (dx dz : ℚ) : ℝ :=
  Real.sqrt ((dx : ℝ) ^ 2 + (dz : ℝ) ^ 2)

/-- The separation normal checkCollision returns:
`new THREE.Vector3(dx, 0, dz).normalize()`. THREE.js `normalize` divides by
`length() || 1`, so a zero-length vector is divided by 1 and left as the zero vector;
the y component is 0, so the 3D length is the planar length. -/
noncomputable def reportedNormal (px pz : ℚ) (o : Obst) : ℝ × ℝ × ℝ :=
  let dx : ℝ := (px : ℝ) - (o.x : ℝ)
  let dz : ℝ := (pz : ℝ) - (o.z : ℝ)
  let len := planarLen (px - o.x) (pz - o.z)
  let d := if len = 0 then 1 else len
  (dx / d, 0 / d, dz / d)

/-- The penetration depth checkCollision returns:
`radius + obj.radius - distance`. -/
noncomputable def reportedPenetration (px pz r : ℚ) (o : Obst) : ℝ :=
  (r : ℝ) + (o.r : ℝ) - planarLen (px - o.x) (pz - o.z)

/-- Stateful embedding of the getHeightAt call inside checkCollision: the function only
reads the module state (heightData, terrainSize), so it returns the state unchanged. -/
def getHeightAtS (s : CState) (x z : ℚ) : JSNum × CState :=
  (collGetHeightAt s.terrainSize s.res s.data s.maxH x z, s)

/-- Stateful embedding of getNearbyObjects: it only reads the grid `Map`
(`has` and `get`), so it returns the state unchanged. -/
def getNearbyObjectsS (s : CState) (cx cz : ℤ) : List Obst × CState :=
  (getNearbyObjects s cx cz, s)

/-- Stateful embedding of checkCollision, threading the module state through each of
its reads as the JavaScript statements execute. -/
def checkCollisionS (s : CState) (px pz r : ℚ) : CollisionResult × CState :=
  let tres := getHeightAtS s px pz
  let s1 := tres.2
  let nres := getNearbyObjectsS s1 (queryCell s1.terrainSize px) (queryCell s1.terrainSize pz)
  let s2 := nres.2
  match nres.1.find? (fun o => collides px pz r o) with
  | some o => (⟨true, some o, tres.1⟩, s2)
  | none => (⟨false, none, tres.1⟩, s2)

/-- One dune stamp as drawn by addDesertDunes (src/unnamed/part_002, lines 76-85):
grid-cell center, radius in cells, peak height, elongation factor and rotation angle. -/
structure Dune where
  cx : ℤ
  cy : ℤ
  radius : ℤ
  height : ℝ
  elong : ℝ
  rot : ℝ

/-- A heightmap, cellwise: the value at row y, column x. -/
def HMap : Type := ℤ → ℤ → ℝ

/-- The elliptical distance of a cell from a dune center (lines 90-100 of
addDesertDunes; identical in addDune, src/js/environment/terrain.js lines 127-137):
rotate the offset into the dune's local frame, divide the rotated x by the elongation,
and take the Euclidean norm. -/
noncomputable def duneDist (d : Dune) (y x : ℤ) : ℝ :=
  let dx : ℝ := ((x - d.cx : ℤ) : ℝ)
  let dy : ℝ := ((y - d.cy : ℤ) : ℝ)
  let rx := dx * Real.cos d.rot - dy * Real.sin d.rot
  let ry := dx * Real.sin d.rot + dy * Real.cos d.rot
  Real.sqrt ((rx / d.elong) ^ 2 + ry ^ 2)

/-- The cell range visited by the stamping loops: y runs from max(0, cy - radius) to
min(res, cy + radius) exclusive, and likewise x (lines 88-89). -/
def inStampBox (res : ℤ) (d : Dune) (y x : ℤ) : Prop :=
  max 0 (d.cy - d.radius) ≤ y ∧ y < min res (d.cy + d.radius) ∧
  max 0 (d.cx - d.radius) ≤ x ∧ x < min res (d.cx + d.radius)

open Classical in
/-- Stamping one dune onto a heightmap (the loop body of addDesertDunes, lines 88-111;
addDune in terrain.js lines 125-148 is the same stamp), stated pointwise — the loops
write each visited cell exactly once, adding `Math.pow(1 - distance/radius, 2) * height`
when the elliptical distance is below the radius, and leave every unvisited cell
untouched. -/
noncomputable def stampDune (res : ℤ) (d : Dune) (m : HMap) : HMap :=
  fun y x =>
    if inStampBox res d y x ∧ duneDist d y x < (d.radius : ℝ) then
      m y x + (1 - duneDist d y x / (d.radius : ℝ)) ^ 2 * d.height
    else m y x

/-- The all-zero heightmap, used as concrete test data. -/
noncomputable def mapZero : HMap := fun _ _ => 0

/-- The array swap `[p[i], p[j]] = [p[j], p[i]]` of the constructor shuffle. -/
def swapL (l : List ℕ) (i j : ℕ) : List ℕ :=
  let a := l.getD i 0
  let b := l.getD j 0
  (l.set i b).set j a

/-- JavaScript `%` on exact values. JS truncates toward zero; for the nonnegative
dividends produced by the seeded generator this agrees with the floored form used
here. -/
def jsMod (a n : ℚ) : ℚ := a - n * (qfloor (a / n) : ℚ)

/-- One step of `_seededRandom` (src/unnamed/part_002, lines 242-247):
`seed = (seed * 9301 + 49297) % 233280`. -/
def lcg (s : ℚ) : ℚ := jsMod (s * 9301 + 49297) 233280

/-- The SimplexNoise constructor (lines 216-239): fill p with 0..255, then for
i = 255 down to 1 swap p[i] with p[j] where `j = Math.floor(rand() * (i + 1))` and
`rand()` advances the linear-congruential sequence and returns seed / 233280. -/
def simplexFromSeed (seed : ℚ) : List ℕ :=
  let start : List ℕ × ℚ := (List.range 256, seed)
  let fin := (List.range 255).foldl (fun st k =>
    let i : ℕ := 255 - k
    let s := lcg st.2
    let j : ℕ := (qfloor ((s / 233280) * ((i : ℚ) + 1))).toNat
    (swapL st.1 i j, s)) start
  fin.1

/-- The table read `perm[i] = p[i & 255]` (the doubled table of length 512, so the index is reduced
mod 256). -/
def permAt (p : List ℕ) (i : ℕ) : ℕ := p.getD (i % 256) 0

/-- The table read `permMod12[i] = perm[i] % 12`. -/
def permMod12At (p : List ℕ) (i : ℕ) : ℕ := permAt p i % 12

/-- The method `_gradient2D` (lines 293-301): select one of 8 gradient directions from the low
3 bits of the hash and return the dot product with (x, y):
`((h & 1) ? -u : u) + ((h & 2) ? -2.0 * v : 2.0 * v)`. -/
noncomputable def gradient2D (hash : ℕ) (x y : ℝ) : ℝ :=
  let h := hash % 8
  let u := if h < 4 then x else y
  let v := if h < 4 then y else x
  (if h % 2 = 1 then -u else u) + (if h / 2 % 2 = 1 then -(2 * v) else 2 * v)

/-- The skew constant `F2 = 0.5 * (Math.sqrt(3) - 1)`. -/
noncomputable def F2 : ℝ := 0.5 * (Real.sqrt 3 - 1)

/-- The unskew constant `G2 = (3 - Math.sqrt(3)) / 6`. -/
noncomputable def G2 : ℝ := (3 - Real.sqrt 3) / 6

/-- The method `noise2D` (lines 249-291): skew into the triangular lattice, pick the simplex
half, and sum the three corner gradient contributions scaled by 70. The int32
`& 255` of the code is modelled as emod 256. Note: the implementation applies NO
radial falloff weight to the corner contributions (see the C6 theorem). -/
noncomputable def noise2D (p : List ℕ) (x y : ℝ) : ℝ :=
  let s := (x + y) * F2
  let i : ℤ := ⌊x + s⌋
  let j : ℤ := ⌊y + s⌋
  let t : ℝ := ((i + j : ℤ) : ℝ) * G2
  let X0 : ℝ := (i : ℝ) - t
  let Y0 : ℝ := (j : ℝ) - t
  let x0 := x - X0
  let y0 := y - Y0
  let i1 : ℕ := if x0 > y0 then 1 else 0
  let j1 : ℕ := if x0 > y0 then 0 else 1
  let x1 := x0 - (i1 : ℝ) + G2
  let y1 := y0 - (j1 : ℝ) + G2
  let x2 := x0 - 1 + 2 * G2
  let y2 := y0 - 1 + 2 * G2
  let ii : ℕ := (i % 256).toNat
  let jj : ℕ := (j % 256).toNat
  let n0 := gradient2D (permMod12At p (ii + permAt p jj)) x0 y0
  let n1 := gradient2D (permMod12At p (ii + i1 + permAt p (jj + j1))) x1 y1
  let n2 := gradient2D (permMod12At p (ii + 1 + permAt p (jj + 1))) x2 y2
  70 * (n0 + n1 + n2)

/-- The octave sum of generateSimplexNoise (src/unnamed/part_002, lines 15-43) at grid
cell (y, x), for width = height = 256 and scale 5, followed by the normalization
`(value + 1) * 0.5` of line 36. -/
noncomputable def baseNoiseAt (p : List ℕ) (y x : ℤ) : ℝ :=
  let nx : ℝ := (x : ℝ) / 256 - 0.5
  let ny : ℝ := (y : ℝ) / 256 - 0.5
  let v := noise2D p (nx * 5) (ny * 5) * 0.7 +
           noise2D p (nx * 5 * 2) (ny * 5 * 2) * 0.2 +
           noise2D p (nx * 5 * 4) (ny * 5 * 4) * 0.1
  (v + 1) * 0.5

/-- The base heightmap of generateDesertHeightmap before dune stamping (lines 50-64):
the shaping curve `Math.pow(height, 1.5) * 0.8` applied to the normalized octave sum.
`Math.pow` is modelled by `Real.rpow`, which agrees with it on nonnegative bases
(JavaScript yields NaN on negative bases — such bases are reachable because of the
noise2D range bug, see `noise2D_exceeds_unit_range` — but no claim below depends on
the value of this branch, only on its determinism). -/
noncomputable def baseHeightAt (p : List ℕ) (y x : ℤ) : ℝ :=
  Real.rpow (baseNoiseAt p y x) 1.5 * 0.8

/-- The dune that one iteration of addDesertDunes builds from its six consecutive
Math.random() draws (lines 76-85), in draw order: centerX, centerY, radius, height,
elongation, rotation. -/
noncomputable def duneOfDraws (c1 c2 c3 c4 c5 c6 : ℚ) : Dune :=
  ⟨qfloor (c1 * 256), qfloor (c2 * 256), qfloor (c3 * 20) + 10,
   (c4 : ℝ) * 0.5 + 0.1, (c5 : ℝ) * 3 + 1, (c6 : ℝ) * Real.pi⟩

/-- The 30 dunes addDesertDunes draws from the ambient Math.random() stream: the
stream is indexed in consumption order, draw 0 being the SimplexNoise default seed
(`new SimplexNoise()` is constructed with `seed = Math.random()`), after which dune i
consumes draws 1+6i .. 6+6i. -/
noncomputable def duneList (rng : ℕ → ℚ) : List Dune :=
  (List.range 30).map fun i =>
    duneOfDraws (rng (1 + 6 * i)) (rng (2 + 6 * i)) (rng (3 + 6 * i))
      (rng (4 + 6 * i)) (rng (5 + 6 * i)) (rng (6 + 6 * i))

/-- addDesertDunes (lines 73-113): stamp the 30 drawn dunes onto the heightmap in
order (stamping is sequential — each dune adds to the grid left by the previous). -/
noncomputable def stampAll (ds : List Dune) (m : HMap) : HMap :=
  ds.foldl (fun acc d => stampDune 256 d acc) m

/-- generateDesertHeightmap (lines 46-70) as a function of the ambient Math.random()
stream: build the simplex instance from draw 0, shape the base noise octaves, then
stamp the 30 dunes drawn from the subsequent draws. -/
noncomputable def generateDesertHeightmap (rng : ℕ → ℚ) : HMap :=
  stampAll (duneList rng) (fun y x => baseHeightAt (simplexFromSeed (rng 0)) y x)

/-- A constant-zero Math.random() stream. -/
def rngA : ℕ → ℚ := fun _ => 0

/-- A stream agreeing with `rngA` everywhere except on the dune height draws
(indices congruent to 4 modulo 6), where it returns 1/2; in particular it yields the
same SimplexNoise seed (draw 0) as `rngA`. -/
def rngB : ℕ → ℚ := fun n => if n % 6 = 4 then 1/2 else 0

/-- A stream differing from `rngA` only beyond the draws generation reads. -/
def rngTail : ℕ → ℚ := fun n => if n ≤ 200 then 0 else 1

/-- A rock placed by the cluster pass of addRocksWithPhysics
(src/js/environment/terrain.js, lines 367-422): world position and uniform scale. -/
structure Rock where
  x : ℝ
  y : ℝ
  z : ℝ
  scale : ℝ

/-- The anchor grid-cell x index of one cluster:
`gridX = Math.floor((centerX + width/2) * (resolution-1) / width)` with
`centerX = Math.random()*width - width/2`, width = 200 and resolution = 128 (the
values passed by createRealisticDesertEnvironment); `b` is the index of the cluster's
first Math.random() draw. -/
def anchorCellX (rng : ℕ → ℚ) (b : ℕ) : ℤ :=
  qfloor (((rng b * 200 - 100) + 100) * 127 / 200)

/-- The anchor grid-cell z index of one cluster (from the draw b+1). -/
def anchorCellZ (rng : ℕ → ℚ) (b : ℕ) : ℤ :=
  qfloor (((rng (b + 1) * 200 - 100) + 100) * 127 / 200)

/-- One cluster iteration of addRocksWithPhysics (lines 369-422), as a function of the
ambient Math.random() stream starting at draw index b. Draw order: centerX, centerZ,
then — only if the anchor cell is inside the grid — the member count
(`Math.floor(Math.random()*5) + 3`), and per member: angle, distance, geometry pick,
material pick, scale, and three rotation draws (8 draws per member). The terrain
height is sampled once, at the anchor's grid cell, and every member's y position is
that shared height plus scale/2. Returns the member rocks and the number of draws
consumed. -/
noncomputable def clusterRocks (data : ℤ → ℤ → ℝ) (rng : ℕ → ℚ) (b : ℕ) :
    List Rock × ℕ :=
  let cx : ℚ := rng b * 200 - 100
  let cz : ℚ := rng (b + 1) * 200 - 100
  if 0 ≤ anchorCellX rng b ∧ anchorCellX rng b < 128 ∧
     0 ≤ anchorCellZ rng b ∧ anchorCellZ rng b < 128 then
    let hei := data (anchorCellZ rng b) (anchorCellX rng b)
    let n : ℕ := (qfloor (rng (b + 2) * 5)).toNat + 3
    (((List.range n).map fun jj =>
      let mb := b + 3 + 8 * jj
      let ang : ℝ := (rng mb : ℝ) * (2 * Real.pi)
      let dist : ℝ := (rng (mb + 1) : ℝ) * 3 + 1
      let scl : ℝ := (rng (mb + 4) : ℝ) * 2 + 1
      Rock.mk ((cx : ℝ) + Real.cos ang * dist) (hei + scl / 2)
        ((cz : ℝ) + Real.sin ang * dist) scl),
     3 + 8 * n)
  else ([], 2)

/-- The cluster loop of addRocksWithPhysics (`clusterCount = 8`, line 368), threading
the ambient draw index through the 8 cluster iterations. -/
noncomputable def addRockClusters (data : ℤ → ℤ → ℝ) (rng : ℕ → ℚ) : List Rock :=
  ((List.range 8).foldl (fun acc _ =>
    let r := clusterRocks data rng acc.2
    (acc.1 ++ r.1, acc.2 + r.2)) (([] : List Rock), 0)).1

/-- Terrain data rising linearly with the x grid index, used as concrete test data. -/
noncomputable def dataSlope : ℤ → ℤ → ℝ := fun _ x => (x : ℝ)

/-- A Math.random() stream: 1/2 on the first two draws (the cluster anchor), 0 after. -/
def rngC : ℕ → ℚ := fun n => if n = 0 ∨ n = 1 then 1/2 else 0

theorem qfloor_eq (q : ℚ) : qfloor q = ⌊q⌋ := (Rat.floor_def' q).trans Rat.floor_def.symm

/-- C1 (amended): CollisionSystem.getHeightAt is exactly the spec's bilinear height
query: for a numeric height scale `m` it maps the world coordinates to normalized grid
space, returns 0 outside the bounds, and otherwise returns the bilinear interpolation of
the four surrounding corner heights scaled by `m` using the fractional offsets within
the containing cell. (TerrainSystem.getHeightAt does not satisfy the claim: it performs
no interpolation — see the counterexample; and in the deployed call the scale read is
`undefined`, turning every in-bounds result into NaN — see C2.) -/
theorem heightQuery_bilinear_refines (ts : ℚ) (res : ℤ) (data : ℤ → ℤ → ℚ) (m : ℚ)
    (x z : ℚ) :
    collGetHeightAt ts res data (some m) x z =
      JSNum.num (bilinearHeightAt ts res data m x z) := by
  unfold collGetHeightAt bilinearHeightAt
  by_cases h : outB ts x z
  · simp [h]
  · simp only [h, if_false, jsMulOpt, JSNum.mulq, JSNum.add, JSNum.num.injEq]

/-- C1 counterexample: on a 2x2 grid (terrainSize 2, height scale 1) at the in-bounds
world point (0, 0), TerrainSystem.getHeightAt returns the un-interpolated nearest-cell
value 4, while the bilinear interpolation of the four surrounding corner heights is 2:
this height query does not return the bilinear interpolation. -/
theorem terrainHeightQuery_not_bilinear_cex :
    terrainGetHeightAt 2 2 dataStep 1 0 0 ≠ bilinearHeightAt 2 2 dataStep 1 0 0 := by
  with_unfolding_all decide

/-- C2: with the actual `TerrainSystem.maxHeight` property read (which is `undefined`,
because the module's public API exposes only `init` and `getHeightAt`), every in-bounds
call of CollisionSystem.getHeightAt returns NaN, while out-of-bounds calls still
return 0. -/
theorem collisionHeightQuery_nan_inBounds (ts : ℚ) (res : ℤ) (data : ℤ → ℤ → ℚ)
    (x z : ℚ) :
    (¬ outB ts x z →
      collGetHeightAt ts res data terrainPublicMaxHeight x z = JSNum.nan) ∧
    (outB ts x z →
      collGetHeightAt ts res data terrainPublicMaxHeight x z = JSNum.num 0) := by
  constructor <;> intro h <;>
    simp [collGetHeightAt, h, terrainPublicMaxHeight, jsMulOpt, JSNum.add, JSNum.mulq]

/-- Witness for C2: at the in-bounds point (0,0) the collision height query returns NaN,
and at the out-of-bounds point (2000, 0) it returns 0 (terrainSize 1000). -/
theorem collisionHeightQuery_nan_inBounds_wit :
    collGetHeightAt 1000 256 dataStep terrainPublicMaxHeight 0 0 = JSNum.nan ∧
    collGetHeightAt 1000 256 dataStep terrainPublicMaxHeight 2000 0 = JSNum.num 0 :=
  ⟨(collisionHeightQuery_nan_inBounds 1000 256 dataStep 0 0).1
      (by with_unfolding_all decide),
   (collisionHeightQuery_nan_inBounds 1000 256 dataStep 2000 0).2
      (by with_unfolding_all decide)⟩

theorem collIx_bounds (res : ℤ) (hres : 2 ≤ res) (n : ℚ) (h0 : 0 ≤ n) (h1 : n ≤ 1) :
    0 ≤ min (qfloor (n * ((res : ℚ) - 1))) (res - 2) ∧
      min (qfloor (n * ((res : ℚ) - 1))) (res - 2) ≤ res - 2 := by
  constructor
  · refine le_min ?_ (by omega)
    rw [qfloor_eq]
    exact Int.floor_nonneg.mpr (mul_nonneg h0 (by
      have : (2 : ℚ) ≤ (res : ℚ) := by exact_mod_cast hres
      linarith))
  · exact min_le_right _ _

/-- C4: out-of-bounds height queries return the documented default 0 in both height
query implementations; for in-bounds queries with resolution at least 2, the corner
index of CollisionSystem.getHeightAt is clamped to resolution - 2, so all four corner
accesses (the +1 accesses included, even exactly at the far boundary) lie inside
[0, res - 1], and the TerrainSystem.getHeightAt index also lies inside [0, res - 1]:
no height query reads the height array out of range. -/
theorem heightQuery_bounds_safe (ts : ℚ) (res : ℤ) (data : ℤ → ℤ → ℚ) (mh : Option ℚ)
    (m2 : ℚ) (x z : ℚ) (hres : 2 ≤ res) :
    (outB ts x z → collGetHeightAt ts res data mh x z = JSNum.num 0 ∧
      terrainGetHeightAt ts res data m2 x z = 0) ∧
    (¬ outB ts x z →
      (0 ≤ collIx ts res x ∧ collIx ts res x + 1 ≤ res - 1 ∧
       0 ≤ collIx ts res z ∧ collIx ts res z + 1 ≤ res - 1) ∧
      (0 ≤ terrIx res (normCoord ts x) ∧ terrIx res (normCoord ts x) ≤ res - 1 ∧
       0 ≤ terrIx res (normCoord ts z) ∧ terrIx res (normCoord ts z) ≤ res - 1)) := by
  constructor
  · intro h
    exact ⟨by simp [collGetHeightAt, h], by simp [terrainGetHeightAt, h]⟩
  · intro h
    unfold outB at h
    push_neg at h
    obtain ⟨hx0, hx1, hz0, hz1⟩ := h
    have hx := collIx_bounds res hres (normCoord ts x) hx0 hx1
    have hz := collIx_bounds res hres (normCoord ts z) hz0 hz1
    refine ⟨⟨hx.1, by have := hx.2; unfold collIx; omega,
            hz.1, by have := hz.2; unfold collIx; omega⟩, ?_⟩
    have tb : ∀ n : ℚ, 0 ≤ n → 0 ≤ terrIx res n ∧ terrIx res n ≤ res - 1 := by
      intro n hn
      constructor
      · refine le_min (by omega) ?_
        rw [qfloor_eq]
        exact Int.floor_nonneg.mpr (mul_nonneg hn (by positivity))
      · exact min_le_left _ _
    exact ⟨(tb _ hx0).1, (tb _ hx0).2, (tb _ hz0).1, (tb _ hz0).2⟩

/-- Witness for C4 at terrainSize 1000, resolution 256, query (0, 0). -/
theorem heightQuery_bounds_safe_wit :
    (outB 1000 0 0 → collGetHeightAt 1000 256 dataStep none 0 0 = JSNum.num 0 ∧
      terrainGetHeightAt 1000 256 dataStep 20 0 0 = 0) ∧
    (¬ outB 1000 0 0 →
      (0 ≤ collIx 1000 256 0 ∧ collIx 1000 256 0 + 1 ≤ 256 - 1 ∧
       0 ≤ collIx 1000 256 0 ∧ collIx 1000 256 0 + 1 ≤ 256 - 1) ∧
      (0 ≤ terrIx 256 (normCoord 1000 0) ∧ terrIx 256 (normCoord 1000 0) ≤ 256 - 1 ∧
       0 ≤ terrIx 256 (normCoord 1000 0) ∧ terrIx 256 (normCoord 1000 0) ≤ 256 - 1)) :=
  heightQuery_bounds_safe 1000 256 dataStep none 20 0 0 (by decide)

theorem collides_iff_sqrt (px pz r : ℚ) (o : Obst) :
    collides px pz r o = true ↔
      Real.sqrt (((px : ℝ) - (o.x : ℝ)) ^ 2 + ((pz : ℝ) - (o.z : ℝ)) ^ 2) <
        (r : ℝ) + (o.r : ℝ) := by
  unfold collides
  rw [decide_eq_true_iff]
  constructor
  · rintro ⟨hs, hlt⟩
    have hs' : (0 : ℝ) ≤ (r : ℝ) + (o.r : ℝ) := by exact_mod_cast hs
    have hlt' : ((px : ℝ) - o.x) ^ 2 + ((pz : ℝ) - o.z) ^ 2 < ((r : ℝ) + o.r) ^ 2 := by
      have := hlt
      push_cast
      exact_mod_cast hlt
    rcases lt_or_eq_of_le hs' with hpos | hzero
    · exact (Real.sqrt_lt' hpos).mpr hlt'
    · exfalso
      rw [← hzero] at hlt'
      nlinarith [sq_nonneg ((px : ℝ) - o.x), sq_nonneg ((pz : ℝ) - o.z)]
  · intro hlt
    have h0 : (0 : ℝ) ≤ Real.sqrt (((px : ℝ) - o.x) ^ 2 + ((pz : ℝ) - o.z) ^ 2) :=
      Real.sqrt_nonneg _
    have hs' : (0 : ℝ) < (r : ℝ) + o.r := lt_of_le_of_lt h0 hlt
    have hlt' := (Real.sqrt_lt' hs').mp hlt
    constructor
    · exact_mod_cast le_of_lt hs'
    · exact_mod_cast hlt'

theorem bucket_addCollisionObject (s : CState) (o : Obst) (c : ℤ × ℤ) :
    bucket (addCollisionObject s o) c =
      bucket s c ++ if covers s.terrainSize o c then [o] else [] := by
  unfold bucket addCollisionObject addToGrid
  by_cases h : covers s.terrainSize o c <;> simp [h]

theorem terrainSize_addCollisionObject (s : CState) (o : Obst) :
    (addCollisionObject s o).terrainSize = s.terrainSize := rfl

theorem bucket_foldl (objs : List Obst) (s : CState) (c : ℤ × ℤ) :
    bucket (objs.foldl addCollisionObject s) c =
      bucket s c ++ objs.filter (fun o => decide (covers s.terrainSize o c)) := by
  induction objs generalizing s with
  | nil => simp
  | cons o tl ih =>
    simp only [List.foldl_cons, List.filter_cons]
    rw [ih, bucket_addCollisionObject, terrainSize_addCollisionObject]
    by_cases h : covers s.terrainSize o c <;> simp [h]

theorem terrainSize_foldl (objs : List Obst) (s : CState) :
    (objs.foldl addCollisionObject s).terrainSize = s.terrainSize := by
  induction objs generalizing s with
  | nil => rfl
  | cons o tl ih => rw [List.foldl_cons, ih, terrainSize_addCollisionObject]

theorem buildState_terrainSize (ts : ℚ) (res : ℤ) (data : ℤ → ℤ → ℚ) (mh : Option ℚ)
    (objs : List Obst) :
    (buildState ts res data mh objs).terrainSize = ts :=
  terrainSize_foldl objs (initCState ts res data mh)

theorem bucket_buildState (ts : ℚ) (res : ℤ) (data : ℤ → ℤ → ℚ) (mh : Option ℚ)
    (objs : List Obst) (c : ℤ × ℤ) :
    bucket (buildState ts res data mh objs) c =
      objs.filter (fun o => decide (covers ts o c)) := by
  unfold buildState
  rw [bucket_foldl]
  simp [bucket, initCState]

theorem mem_getNearbyObjects (s : CState) (cx cz : ℤ) (o : Obst) :
    o ∈ getNearbyObjects s cx cz ↔ ∃ c ∈ cells3x3 cx cz, o ∈ bucket s c := by
  simp [getNearbyObjects, bucket, List.mem_flatMap]

theorem qfloor_le_of_le (a b : ℚ) (h : a ≤ b) : qfloor a ≤ qfloor b := by
  rw [qfloor_eq, qfloor_eq]; exact Int.floor_le_floor h

theorem qfloor_add_one (a : ℚ) : qfloor (a + 1) = qfloor a + 1 := by
  rw [qfloor_eq, qfloor_eq]; exact_mod_cast Int.floor_add_int a 1

theorem qfloor_sub_one (a : ℚ) : qfloor (a - 1) = qfloor a - 1 := by
  rw [qfloor_eq, qfloor_eq]; exact_mod_cast Int.floor_sub_int a 1

theorem cell_le_of_le (a b : ℚ) (h : a ≤ b + gridSize) :
    qfloor (a / gridSize) ≤ qfloor (b / gridSize) + 1 := by
  have g10 : (0 : ℚ) < gridSize := by norm_num [gridSize]
  have h2 : a / gridSize ≤ (b + gridSize) / gridSize := (div_le_div_right g10).mpr h
  have h3 : (b + gridSize) / gridSize = b / gridSize + 1 := by field_simp
  rw [h3] at h2
  calc qfloor (a / gridSize) ≤ qfloor (b / gridSize + 1) := qfloor_le_of_le _ _ h2
    _ = qfloor (b / gridSize) + 1 := qfloor_add_one _

theorem cell_ge_of_ge (a b : ℚ) (h : b - gridSize ≤ a) :
    qfloor (b / gridSize) - 1 ≤ qfloor (a / gridSize) := by
  have g10 : (0 : ℚ) < gridSize := by norm_num [gridSize]
  have h2 : (b - gridSize) / gridSize ≤ a / gridSize := (div_le_div_right g10).mpr h
  have h3 : (b - gridSize) / gridSize = b / gridSize - 1 := by field_simp
  rw [h3] at h2
  calc qfloor (b / gridSize) - 1 = qfloor (b / gridSize - 1) := (qfloor_sub_one _).symm
    _ ≤ qfloor (a / gridSize) := qfloor_le_of_le _ _ h2

theorem collides_components_lt (px pz r : ℚ) (o : Obst)
    (hc : collides px pz r o = true) :
    px - o.x < r + o.r ∧ o.x - px < r + o.r ∧ pz - o.z < r + o.r ∧ o.z - pz < r + o.r := by
  unfold collides at hc
  rw [decide_eq_true_iff] at hc
  obtain ⟨hs, hlt⟩ := hc
  refine ⟨?_, ?_, ?_, ?_⟩ <;> nlinarith [sq_nonneg (px - o.x), sq_nonneg (pz - o.z)]

/-- Any obstacle colliding with a query of radius at most the grid cell size is
registered in at least one cell of the 3x3 block around the query cell. -/
theorem covers_of_collides (ts : ℚ) (o : Obst) (px pz r : ℚ)
    (hr : r ≤ gridSize) (ho : 0 ≤ o.r) (hc : collides px pz r o = true) :
    ∃ c ∈ cells3x3 (queryCell ts px) (queryCell ts pz), covers ts o c := by
  obtain ⟨hd1, hd2, hd3, hd4⟩ := collides_components_lt px pz r o hc
  have hminx : minCellX ts o ≤ queryCell ts px + 1 := by
    unfold minCellX queryCell
    exact cell_le_of_le _ _ (by linarith)
  have hmaxx : queryCell ts px - 1 ≤ maxCellX ts o := by
    unfold maxCellX queryCell
    exact cell_ge_of_ge _ _ (by linarith)
  have hmmx : minCellX ts o ≤ maxCellX ts o := by
    unfold minCellX maxCellX
    exact qfloor_le_of_le _ _ ((div_le_div_right (by norm_num [gridSize])).mpr (by linarith))
  have hminz : minCellZ ts o ≤ queryCell ts pz + 1 := by
    unfold minCellZ queryCell
    exact cell_le_of_le _ _ (by linarith)
  have hmaxz : queryCell ts pz - 1 ≤ maxCellZ ts o := by
    unfold maxCellZ queryCell
    exact cell_ge_of_ge _ _ (by linarith)
  have hmmz : minCellZ ts o ≤ maxCellZ ts o := by
    unfold minCellZ maxCellZ
    exact qfloor_le_of_le _ _ ((div_le_div_right (by norm_num [gridSize])).mpr (by linarith))
  refine ⟨(max (minCellX ts o) (queryCell ts px - 1),
           max (minCellZ ts o) (queryCell ts pz - 1)), ?_, ?_⟩
  · have hx : max (minCellX ts o) (queryCell ts px - 1) = queryCell ts px - 1 ∨
        max (minCellX ts o) (queryCell ts px - 1) = queryCell ts px ∨
        max (minCellX ts o) (queryCell ts px - 1) = queryCell ts px + 1 := by
      have l1 := le_max_right (minCellX ts o) (queryCell ts px - 1)
      have l2 : max (minCellX ts o) (queryCell ts px - 1) ≤ queryCell ts px + 1 :=
        max_le hminx (by omega)
      omega
    have hz : max (minCellZ ts o) (queryCell ts pz - 1) = queryCell ts pz - 1 ∨
        max (minCellZ ts o) (queryCell ts pz - 1) = queryCell ts pz ∨
        max (minCellZ ts o) (queryCell ts pz - 1) = queryCell ts pz + 1 := by
      have l1 := le_max_right (minCellZ ts o) (queryCell ts pz - 1)
      have l2 : max (minCellZ ts o) (queryCell ts pz - 1) ≤ queryCell ts pz + 1 :=
        max_le hminz (by omega)
      omega
    rcases hx with h | h | h <;> rcases hz with h' | h' | h' <;> simp [cells3x3, h, h']
  · refine ⟨le_max_left _ _, max_le hmmx (by omega), le_max_left _ _, max_le hmmz (by omega)⟩

theorem checkCollision_hit (s : CState) (px pz r : ℚ) :
    (checkCollision s px pz r).hit =
      (getNearbyObjects s (queryCell s.terrainSize px) (queryCell s.terrainSize pz)).find?
        (fun o => collides px pz r o) := by
  simp only [checkCollision]
  cases h : (getNearbyObjects s (queryCell s.terrainSize px)
      (queryCell s.terrainSize pz)).find? (fun o => collides px pz r o) <;> simp [h]

theorem checkCollision_collision (s : CState) (px pz r : ℚ) :
    (checkCollision s px pz r).collision =
      ((getNearbyObjects s (queryCell s.terrainSize px)
          (queryCell s.terrainSize pz)).find? (fun o => collides px pz r o)).isSome := by
  simp only [checkCollision]
  cases h : (getNearbyObjects s (queryCell s.terrainSize px)
      (queryCell s.terrainSize pz)).find? (fun o => collides px pz r o) <;> simp [h]

/-- C3 (amended): for obstacles with nonnegative bounding radii registered through
addCollisionObject, and a query radius at most the grid cell size (10), checkCollision
reports a collision exactly when some registered obstacle's planar distance to the query
position is below the radius sum, and any reported obstacle is registered and satisfies
that distance bound. (The claim's unrestricted equivalence fails for query radii above
the cell size — see the counterexample — and with several overlapping obstacles only the
first candidate in bucket order is reported.) -/
theorem checkCollision_iff_dist_lt_smallRadius (ts : ℚ) (res : ℤ) (data : ℤ → ℤ → ℚ)
    (mh : Option ℚ) (objs : List Obst) (px pz r : ℚ)
    (hr : r ≤ gridSize) (ho : ∀ o ∈ objs, 0 ≤ o.r) :
    ((checkCollision (buildState ts res data mh objs) px pz r).collision = true ↔
      ∃ o ∈ objs, collides px pz r o = true) ∧
    (∀ o, (checkCollision (buildState ts res data mh objs) px pz r).hit = some o →
      o ∈ objs ∧ collides px pz r o = true) := by
  have hts : (buildState ts res data mh objs).terrainSize = ts :=
    buildState_terrainSize ts res data mh objs
  have hmem : ∀ o : Obst,
      o ∈ getNearbyObjects (buildState ts res data mh objs)
            (queryCell ts px) (queryCell ts pz) ↔
      (o ∈ objs ∧ ∃ c ∈ cells3x3 (queryCell ts px) (queryCell ts pz), covers ts o c) := by
    intro o
    rw [mem_getNearbyObjects]
    constructor
    · rintro ⟨c, hcmem, hob⟩
      rw [bucket_buildState] at hob
      rw [List.mem_filter] at hob
      exact ⟨hob.1, c, hcmem, of_decide_eq_true hob.2⟩
    · rintro ⟨hobjs, c, hcmem, hcov⟩
      refine ⟨c, hcmem, ?_⟩
      rw [bucket_buildState, List.mem_filter]
      exact ⟨hobjs, decide_eq_true hcov⟩
  have hhit := checkCollision_hit (buildState ts res data mh objs) px pz r
  have hcol := checkCollision_collision (buildState ts res data mh objs) px pz r
  rw [hts] at hhit hcol
  constructor
  · rw [hcol, List.find?_isSome]
    constructor
    · rintro ⟨o, hin, hp⟩
      exact ⟨o, ((hmem o).mp hin).1, hp⟩
    · rintro ⟨o, hobjs, hcol'⟩
      obtain ⟨c, hcmem, hcov⟩ := covers_of_collides ts o px pz r hr (ho o hobjs) hcol'
      exact ⟨o, (hmem o).mpr ⟨hobjs, c, hcmem, hcov⟩, hcol'⟩
  · intro o ho'
    rw [hhit] at ho'
    exact ⟨((hmem o).mp (List.mem_of_find?_eq_some ho')).1, List.find?_some ho'⟩

/-- C3 counterexample: one obstacle at the origin with bounding radius 1, queried at
(25, 0) with radius 30 (terrainSize 1000): the planar distance 25 is below the radius
sum 31, but the obstacle's registered cells (x indices 49-50) do not meet the 3x3 block
around the query cell (x indices 51-53), so checkCollision reports no collision — the
claimed equivalence fails as stated for all query radii. -/
theorem checkCollision_misses_largeRadius_cex :
    collides 25 0 30 (Obst.mk 0 0 1) = true ∧
    (checkCollision (buildState 1000 2 dataStep none [Obst.mk 0 0 1]) 25 0 30).collision
      = false := by
  with_unfolding_all decide

/-- Witness for C3: obstacle at the origin with radius 1, query at (1/2, 0) with
radius 3/5 (the spec's end-to-end collision scenario). -/
theorem checkCollision_iff_dist_lt_smallRadius_wit :
    (((checkCollision (buildState 1000 2 dataStep none [Obst.mk 0 0 1])
        (1/2) 0 (3/5)).collision = true ↔
      ∃ o ∈ [Obst.mk 0 0 1], collides (1/2) 0 (3/5) o = true) ∧
     (∀ o, (checkCollision (buildState 1000 2 dataStep none [Obst.mk 0 0 1])
        (1/2) 0 (3/5)).hit = some o →
      o ∈ [Obst.mk 0 0 1] ∧ collides (1/2) 0 (3/5) o = true)) :=
  checkCollision_iff_dist_lt_smallRadius 1000 2 dataStep none [Obst.mk 0 0 1]
    (1/2) 0 (3/5) (by with_unfolding_all decide) (by with_unfolding_all decide)

theorem planarLen_cast (px pz : ℚ) (o : Obst) :
    planarLen (px - o.x) (pz - o.z) =
      Real.sqrt (((px : ℝ) - (o.x : ℝ)) ^ 2 + ((pz : ℝ) - (o.z : ℝ)) ^ 2) := by
  unfold planarLen
  push_cast
  rfl

/-- C8 (amended): whenever checkCollision reports a hit obstacle, the penetration depth
it returns equals (query radius + bounding radius) - planar distance and is positive,
and the normal is the normalized horizontal vector from the obstacle toward the query
position — a unit vector — whenever the planar distance is nonzero; at planar distance
exactly 0 no division by zero occurs, but the returned normal is the zero vector (THREE
normalize maps the zero vector to itself), not a substituted unit vector (see the
counterexample). -/
theorem checkCollision_normal_penetration (s : CState) (px pz r : ℚ) (o : Obst)
    (h : (checkCollision s px pz r).hit = some o) :
    0 < reportedPenetration px pz r o ∧
    (planarLen (px - o.x) (pz - o.z) ≠ 0 →
      reportedNormal px pz o =
        (((px : ℝ) - (o.x : ℝ)) / planarLen (px - o.x) (pz - o.z), 0,
         ((pz : ℝ) - (o.z : ℝ)) / planarLen (px - o.x) (pz - o.z)) ∧
      (reportedNormal px pz o).1 ^ 2 + (reportedNormal px pz o).2.1 ^ 2 +
        (reportedNormal px pz o).2.2 ^ 2 = 1) ∧
    (planarLen (px - o.x) (pz - o.z) = 0 → reportedNormal px pz o = (0, 0, 0)) := by
  have hcol : collides px pz r o = true := by
    rw [checkCollision_hit] at h
    exact List.find?_some h
  have hsq : ((px : ℝ) - (o.x : ℝ)) ^ 2 + ((pz : ℝ) - (o.z : ℝ)) ^ 2 =
      (((px - o.x : ℚ) : ℝ)) ^ 2 + (((pz - o.z : ℚ) : ℝ)) ^ 2 := by push_cast; ring
  refine ⟨?_, ?_, ?_⟩
  · have := (collides_iff_sqrt px pz r o).mp hcol
    unfold reportedPenetration
    rw [planarLen_cast]
    linarith
  · intro hlen
    constructor
    · unfold reportedNormal
      simp [hlen]
    · unfold reportedNormal
      simp only [hlen, if_neg hlen, zero_div]
      have hnn : (0 : ℝ) ≤ (((px - o.x : ℚ) : ℝ)) ^ 2 + (((pz - o.z : ℚ) : ℝ)) ^ 2 := by
        positivity
      have hsq2 : planarLen (px - o.x) (pz - o.z) ^ 2 =
          ((px : ℝ) - (o.x : ℝ)) ^ 2 + ((pz : ℝ) - (o.z : ℝ)) ^ 2 := by
        unfold planarLen
        rw [Real.sq_sqrt hnn, hsq]
      field_simp
      linarith [hsq2]
  · intro hlen
    have h0 : (((px - o.x : ℚ) : ℝ)) ^ 2 + (((pz - o.z : ℚ) : ℝ)) ^ 2 ≤ 0 := by
      have := Real.sqrt_eq_zero'.mp hlen
      exact this
    have hx : ((px : ℝ) - (o.x : ℝ)) = 0 := by
      push_cast at h0
      nlinarith [sq_nonneg ((px : ℝ) - o.x), sq_nonneg ((pz : ℝ) - o.z)]
    have hz : ((pz : ℝ) - (o.z : ℝ)) = 0 := by
      push_cast at h0
      nlinarith [sq_nonneg ((px : ℝ) - o.x), sq_nonneg ((pz : ℝ) - o.z)]
    unfold reportedNormal
    simp only [hlen, if_pos]
    rw [hx, hz]
    norm_num

/-- C8 counterexample: one obstacle at the origin with radius 1, queried exactly at the
origin with radius 1: a collision is reported at planar distance 0, and the returned
normal is the zero vector — its squared length is 0, so no fixed unit vector is
substituted in the degenerate case. -/
theorem checkCollision_zero_distance_normal_cex :
    (checkCollision (buildState 1000 2 dataStep none [Obst.mk 0 0 1]) 0 0 1).hit =
        some (Obst.mk 0 0 1) ∧
    reportedNormal 0 0 (Obst.mk 0 0 1) = (0, 0, 0) ∧
    (reportedNormal 0 0 (Obst.mk 0 0 1)).1 ^ 2 +
      (reportedNormal 0 0 (Obst.mk 0 0 1)).2.1 ^ 2 +
      (reportedNormal 0 0 (Obst.mk 0 0 1)).2.2 ^ 2 ≠ 1 := by
  have hn : reportedNormal 0 0 (Obst.mk 0 0 1) = (0, 0, 0) := by
    unfold reportedNormal planarLen
    norm_num [Real.sqrt_zero]
  refine ⟨by with_unfolding_all decide, hn, ?_⟩
  rw [hn]
  norm_num

/-- Witness for C8: obstacle at the origin with radius 1, query at (3, 4) with
radius 10: a hit is reported at planar distance 5 and the stated normal and
penetration facts hold there. -/
theorem checkCollision_normal_penetration_wit :
    0 < reportedPenetration 3 4 10 (Obst.mk 0 0 1) ∧
    (planarLen (3 - (Obst.mk 0 0 1).x) (4 - (Obst.mk 0 0 1).z) ≠ 0 →
      reportedNormal 3 4 (Obst.mk 0 0 1) =
        ((((3 : ℚ) : ℝ) - ((Obst.mk 0 0 1).x : ℝ)) /
            planarLen (3 - (Obst.mk 0 0 1).x) (4 - (Obst.mk 0 0 1).z), 0,
         (((4 : ℚ) : ℝ) - ((Obst.mk 0 0 1).z : ℝ)) /
            planarLen (3 - (Obst.mk 0 0 1).x) (4 - (Obst.mk 0 0 1).z)) ∧
      (reportedNormal 3 4 (Obst.mk 0 0 1)).1 ^ 2 +
        (reportedNormal 3 4 (Obst.mk 0 0 1)).2.1 ^ 2 +
        (reportedNormal 3 4 (Obst.mk 0 0 1)).2.2 ^ 2 = 1) ∧
    (planarLen (3 - (Obst.mk 0 0 1).x) (4 - (Obst.mk 0 0 1).z) = 0 →
      reportedNormal 3 4 (Obst.mk 0 0 1) = (0, 0, 0)) :=
  checkCollision_normal_penetration
    (buildState 1000 2 dataStep none [Obst.mk 0 0 1]) 3 4 10 (Obst.mk 0 0 1)
    (by with_unfolding_all decide)

/-- C10: checkCollision is side-effect-free: the state after the query is the state
before it — in particular the height data, the registered object list and every
spatial-hash bucket are unchanged — and its result agrees with the pure collision
query. (The grid is mutated only by addCollisionObject / addToGrid at insertion.) -/
theorem checkCollision_pure (s : CState) (px pz r : ℚ) :
    (checkCollisionS s px pz r).2 = s ∧
    (checkCollisionS s px pz r).2.data = s.data ∧
    (checkCollisionS s px pz r).2.objects = s.objects ∧
    (∀ c, (checkCollisionS s px pz r).2.grid c = s.grid c) ∧
    (checkCollisionS s px pz r).1 = checkCollision s px pz r := by
  simp only [checkCollisionS, checkCollision, getHeightAtS, getNearbyObjectsS]
  cases h : (getNearbyObjects s (queryCell s.terrainSize px)
      (queryCell s.terrainSize pz)).find? (fun o => collides px pz r o) <;>
    simp [h]

/-- C7 (amended): stamping one dune adds exactly height * (1 - distance/radius)^2 to
every cell of the loops' clamped bounding box whose elliptical distance from the dune
center is below the radius, leaves every other cell (including cells outside the box)
unchanged, and for a nonnegative dune height never decreases any cell. (The claim's
"every grid cell whose distance is below the radius" fails: an elongated dune's ellipse
extends beyond the bounding box the loops scan — see the counterexample.) -/
theorem stampDune_additive_inBox (res : ℤ) (d : Dune) (m : HMap) (y x : ℤ)
    (hh : 0 ≤ d.height) :
    (inStampBox res d y x → duneDist d y x < (d.radius : ℝ) →
      stampDune res d m y x =
        m y x + (1 - duneDist d y x / (d.radius : ℝ)) ^ 2 * d.height) ∧
    (inStampBox res d y x → ¬ duneDist d y x < (d.radius : ℝ) →
      stampDune res d m y x = m y x) ∧
    (¬ inStampBox res d y x → stampDune res d m y x = m y x) ∧
    m y x ≤ stampDune res d m y x := by
  refine ⟨?_, ?_, ?_, ?_⟩
  · intro h1 h2
    simp [stampDune, h1, h2]
  · intro h1 h2
    simp [stampDune, h2]
  · intro h1
    simp [stampDune, h1]
  · unfold stampDune
    by_cases hc : inStampBox res d y x ∧ duneDist d y x < (d.radius : ℝ)
    · simp only [if_pos hc]
      nlinarith [sq_nonneg (1 - duneDist d y x / (d.radius : ℝ))]
    · simp [hc]

/-- Witness for C7: a circular dune of radius 10 and height 1 centered at the grid
origin, evaluated at its center cell. -/
theorem stampDune_additive_inBox_wit :
    (inStampBox 256 (Dune.mk 0 0 10 1 1 0) 0 0 →
      duneDist (Dune.mk 0 0 10 1 1 0) 0 0 < ((Dune.mk 0 0 10 1 1 0).radius : ℝ) →
      stampDune 256 (Dune.mk 0 0 10 1 1 0) mapZero 0 0 =
        mapZero 0 0 + (1 - duneDist (Dune.mk 0 0 10 1 1 0) 0 0 /
          ((Dune.mk 0 0 10 1 1 0).radius : ℝ)) ^ 2 * (Dune.mk 0 0 10 1 1 0).height) ∧
    (inStampBox 256 (Dune.mk 0 0 10 1 1 0) 0 0 →
      ¬ duneDist (Dune.mk 0 0 10 1 1 0) 0 0 < ((Dune.mk 0 0 10 1 1 0).radius : ℝ) →
      stampDune 256 (Dune.mk 0 0 10 1 1 0) mapZero 0 0 = mapZero 0 0) ∧
    (¬ inStampBox 256 (Dune.mk 0 0 10 1 1 0) 0 0 →
      stampDune 256 (Dune.mk 0 0 10 1 1 0) mapZero 0 0 = mapZero 0 0) ∧
    mapZero 0 0 ≤ stampDune 256 (Dune.mk 0 0 10 1 1 0) mapZero 0 0 :=
  stampDune_additive_inBox 256 (Dune.mk 0 0 10 1 1 0) mapZero 0 0 zero_le_one

/-- C7 counterexample: a dune centered at cell (100, 100) with radius 10, height 1,
elongation 2 and rotation pi/2 has elliptical distance 5 < 10 at the cell
(y, x) = (110, 100), yet the stamping loops never visit that cell (the y loop stops
below cy + radius = 110): the stamp leaves it at 0 instead of adding
(1 - 5/10)^2 * 1 = 1/4, so the dune does not add its falloff to every cell within its
elliptical radius. -/
theorem stampDune_misses_ellipse_outside_box_cex :
    duneDist (Dune.mk 100 100 10 1 2 (Real.pi / 2)) 110 100 <
      ((Dune.mk 100 100 10 1 2 (Real.pi / 2)).radius : ℝ) ∧
    stampDune 256 (Dune.mk 100 100 10 1 2 (Real.pi / 2)) mapZero 110 100 = 0 ∧
    (1 - duneDist (Dune.mk 100 100 10 1 2 (Real.pi / 2)) 110 100 /
        ((Dune.mk 100 100 10 1 2 (Real.pi / 2)).radius : ℝ)) ^ 2 *
      (Dune.mk 100 100 10 1 2 (Real.pi / 2)).height ≠ 0 := by
  have hd : duneDist (Dune.mk 100 100 10 1 2 (Real.pi / 2)) 110 100 = 5 := by
    unfold duneDist
    simp only [Real.cos_pi_div_two, Real.sin_pi_div_two]
    norm_num
    rw [show (25 : ℝ) = 5 ^ 2 by norm_num, Real.sqrt_sq (by norm_num)]
  refine ⟨?_, ?_, ?_⟩
  · rw [hd]; norm_num
  · have hbox : ¬ inStampBox 256 (Dune.mk 100 100 10 1 2 (Real.pi / 2)) 110 100 := by
      unfold inStampBox
      norm_num
    simp [stampDune, hbox, mapZero]
  · rw [hd]; norm_num

theorem gradient2D_zero (h : ℕ) : gradient2D h 0 0 = 0 := by
  simp [gradient2D]

theorem noise2D_zero_eval (p : List ℕ) :
    noise2D p 0 0 = 70 * (gradient2D (permMod12At p (permAt p 1)) G2 (G2 - 1) +
      gradient2D (permMod12At p (1 + permAt p 1)) (2 * G2 - 1) (2 * G2 - 1)) := by
  unfold noise2D
  norm_num [gradient2D_zero]
  ring_nf

set_option maxRecDepth 8000 in
/-- C6 (code bug): noise2D omits the radial falloff of simplex noise — each corner
contributes its raw gradient dot product, and the sum is scaled by 70 — so its output
is far outside the intended roughly [-1, 1] range that the caller relies on when it
normalizes with `(value + 1) * 0.5` ("Normalize to 0-1 range", line 36 of
src/unnamed/part_002). Concretely, for the instance built from seed 1 the value at the
input (0, 0) is -210 * G2 = -35 * (3 - sqrt 3), about -44.4, whose absolute value
exceeds 1. -/
theorem noise2D_exceeds_unit_range :
    1 < |noise2D (simplexFromSeed 1) 0 0| := by
  have h1 : permMod12At (simplexFromSeed 1) (permAt (simplexFromSeed 1) 1) = 6 := by
    with_unfolding_all decide
  have h2 : permMod12At (simplexFromSeed 1) (1 + permAt (simplexFromSeed 1) 1) = 2 := by
    with_unfolding_all decide
  rw [noise2D_zero_eval, h1, h2]
  have hs3 : Real.sqrt 3 < 1.8 := by
    rw [Real.sqrt_lt' (by norm_num)]
    norm_num
  have hval : gradient2D 6 G2 (G2 - 1) + gradient2D 2 (2 * G2 - 1) (2 * G2 - 1) =
      -(3 * G2) := by
    simp [gradient2D]
    ring
  rw [hval]
  have hG2 : (0 : ℝ) < G2 := by
    unfold G2
    linarith
  rw [abs_of_neg (by linarith)]
  unfold G2
  linarith

/-- C5 (amended): heightfield generation is deterministic in the ambient random
stream: it reads only draws 0 through 180 (the SimplexNoise default seed plus six
draws for each of the 30 dunes), and any two streams that agree there produce
identical heightmaps. The generation has no seed parameter of its own — it does
depend on the ambient unseeded Math.random() source, so two runs are bit-identical
only when that ambient sequence repeats (see the counterexample). -/
theorem heightmapGeneration_deterministic_in_stream (r1 r2 : ℕ → ℚ)
    (h : ∀ n, n ≤ 180 → r1 n = r2 n) :
    generateDesertHeightmap r1 = generateDesertHeightmap r2 := by
  unfold generateDesertHeightmap
  have hseed : r1 0 = r2 0 := h 0 (by norm_num)
  have hdunes : duneList r1 = duneList r2 := by
    unfold duneList
    apply List.map_congr_left
    intro i hi
    rw [List.mem_range] at hi
    rw [h (1 + 6 * i) (by omega), h (2 + 6 * i) (by omega), h (3 + 6 * i) (by omega),
        h (4 + 6 * i) (by omega), h (5 + 6 * i) (by omega), h (6 + 6 * i) (by omega)]
  rw [hseed, hdunes]

/-- Witness for C5: the all-zero stream and a stream differing only after index 200
agree on draws 0..180, so they generate identical heightmaps. -/
theorem heightmapGeneration_deterministic_in_stream_wit :
    generateDesertHeightmap rngA = generateDesertHeightmap rngTail :=
  heightmapGeneration_deterministic_in_stream rngA rngTail
    (fun n hn => by
      have h200 : n ≤ 200 := by omega
      simp [rngA, rngTail, h200])

theorem stampDune_center (d : Dune) (m : HMap) (hcx : d.cx = 0) (hcy : d.cy = 0)
    (hrad : d.radius = 10) :
    stampDune 256 d m 0 0 = m 0 0 + d.height := by
  have hdist : duneDist d 0 0 = 0 := by
    unfold duneDist
    rw [hcx, hcy]
    norm_num [Real.sqrt_zero]
  have hbox : inStampBox 256 d 0 0 := by
    unfold inStampBox
    rw [hcx, hcy, hrad]
    norm_num
  simp only [stampDune]
  rw [hdist, hrad]
  rw [if_pos ⟨hbox, by norm_num⟩]
  norm_num

theorem stampAll_center : ∀ (ds : List Dune) (m : HMap),
    (∀ d ∈ ds, d.cx = 0 ∧ d.cy = 0 ∧ d.radius = 10) →
    stampAll ds m 0 0 = m 0 0 + (ds.map Dune.height).sum := by
  intro ds
  induction ds with
  | nil => intro m _; simp [stampAll]
  | cons d tl ih =>
    intro m h
    have hd := h d (List.mem_cons_self d tl)
    have htl := fun d' hd' => h d' (List.mem_cons_of_mem _ hd')
    have hstep : stampAll (d :: tl) m = stampAll tl (stampDune 256 d m) := rfl
    rw [hstep, ih (stampDune 256 d m) htl,
        stampDune_center d m hd.1 hd.2.1 hd.2.2]
    simp [List.map_cons]
    ring

theorem qfloor_zero : qfloor 0 = 0 := by
  rw [qfloor_eq]; simp

theorem duneList_rngA : duneList rngA = List.replicate 30 (duneOfDraws 0 0 0 0 0 0) := by
  unfold duneList
  have h : ∀ i ∈ List.range 30,
      duneOfDraws (rngA (1 + 6 * i)) (rngA (2 + 6 * i)) (rngA (3 + 6 * i))
        (rngA (4 + 6 * i)) (rngA (5 + 6 * i)) (rngA (6 + 6 * i)) =
      duneOfDraws 0 0 0 0 0 0 := by
    intro i _
    simp [rngA]
  rw [List.map_congr_left h]
  simp

theorem duneList_rngB :
    duneList rngB = List.replicate 30 (duneOfDraws 0 0 0 (1/2) 0 0) := by
  unfold duneList
  have h : ∀ i ∈ List.range 30,
      duneOfDraws (rngB (1 + 6 * i)) (rngB (2 + 6 * i)) (rngB (3 + 6 * i))
        (rngB (4 + 6 * i)) (rngB (5 + 6 * i)) (rngB (6 + 6 * i)) =
      duneOfDraws 0 0 0 (1/2) 0 0 := by
    intro i _
    have e1 : (1 + 6 * i) % 6 ≠ 4 := by omega
    have e2 : (2 + 6 * i) % 6 ≠ 4 := by omega
    have e3 : (3 + 6 * i) % 6 ≠ 4 := by omega
    have e4 : (4 + 6 * i) % 6 = 4 := by omega
    have e5 : (5 + 6 * i) % 6 ≠ 4 := by omega
    have e6 : (6 + 6 * i) % 6 ≠ 4 := by omega
    simp [rngB, e1, e2, e3, e4, e5, e6]
  rw [List.map_congr_left h]
  simp

theorem centeredDune_fields (c4 : ℚ) :
    (duneOfDraws 0 0 0 c4 0 0).cx = 0 ∧ (duneOfDraws 0 0 0 c4 0 0).cy = 0 ∧
      (duneOfDraws 0 0 0 c4 0 0).radius = 10 := by
  unfold duneOfDraws
  refine ⟨?_, ?_, ?_⟩ <;> simp [qfloor_zero]

/-- C5 counterexample: heightfield generation reads the ambient Math.random() source,
so two runs are not bit-identical: with the all-zero ambient stream every dune has
height 0.1 and the cell (0,0) ends at base + 30 * 0.1, while with a stream that yields
the same SimplexNoise seed but 1/2 on the height draws every dune has height 0.35 and
the same cell ends at base + 30 * 0.35 — the two runs' height grids differ. -/
theorem heightmapGeneration_ambientRandom_cex :
    generateDesertHeightmap rngA ≠ generateDesertHeightmap rngB := by
  intro heq
  have h0 : generateDesertHeightmap rngA 0 0 = generateDesertHeightmap rngB 0 0 := by
    rw [heq]
  have hA : generateDesertHeightmap rngA 0 0 =
      baseHeightAt (simplexFromSeed 0) 0 0 + 3 := by
    unfold generateDesertHeightmap
    rw [duneList_rngA, stampAll_center _ _ (fun d hd => by
      rw [List.eq_of_mem_replicate hd]; exact centeredDune_fields 0)]
    rw [show rngA 0 = 0 from rfl]
    rw [List.map_replicate, List.sum_replicate]
    unfold duneOfDraws
    push_cast
    norm_num
  have hB : generateDesertHeightmap rngB 0 0 =
      baseHeightAt (simplexFromSeed 0) 0 0 + 21 / 2 := by
    unfold generateDesertHeightmap
    rw [duneList_rngB, stampAll_center _ _ (fun d hd => by
      rw [List.eq_of_mem_replicate hd]; exact centeredDune_fields (1/2))]
    rw [show rngB 0 = 0 from rfl]
    rw [List.map_replicate, List.sum_replicate]
    unfold duneOfDraws
    push_cast
    norm_num
  rw [hA, hB] at h0
  linarith

theorem addRockClusters_first_cluster (data : ℤ → ℤ → ℝ) (rng : ℕ → ℚ) :
    ∃ tl, addRockClusters data rng = (clusterRocks data rng 0).1 ++ tl := by
  have gen : ∀ (l : List ℕ) (acc : List Rock × ℕ), ∃ tl,
      (l.foldl (fun acc _ =>
        let r := clusterRocks data rng acc.2
        (acc.1 ++ r.1, acc.2 + r.2)) acc).1 = acc.1 ++ tl := by
    intro l
    induction l with
    | nil => intro acc; exact ⟨[], by simp⟩
    | cons a tl ih =>
      intro acc
      obtain ⟨t2, ht2⟩ := ih (acc.1 ++ (clusterRocks data rng acc.2).1,
        acc.2 + (clusterRocks data rng acc.2).2)
      exact ⟨(clusterRocks data rng acc.2).1 ++ t2, by
        simp only [List.foldl_cons]
        rw [ht2, List.append_assoc]⟩
  unfold addRockClusters
  rw [List.range_succ_eq_map]
  simp only [List.foldl_cons]
  obtain ⟨t2, ht2⟩ := gen ((List.range 7).map Nat.succ)
    (([] : List Rock) ++ (clusterRocks data rng 0).1, 0 + (clusterRocks data rng 0).2)
  exact ⟨t2, by rw [ht2]; simp⟩

/-- C9 (amended): every member rock of a cluster is seated at the terrain height
sampled once at the cluster anchor's grid cell: its y position equals that shared
anchor height plus scale/2, whatever the member's own polar offset is — the members do
NOT re-query the terrain at their own (x, z) (see the counterexample). -/
theorem clusterRocks_seated_at_anchor_height (data : ℤ → ℤ → ℝ) (rng : ℕ → ℚ) (b : ℕ)
    (r : Rock) (hr : r ∈ (clusterRocks data rng b).1) :
    r.y = data (anchorCellZ rng b) (anchorCellX rng b) + r.scale / 2 := by
  unfold clusterRocks at hr
  by_cases hc : (0 ≤ anchorCellX rng b ∧ anchorCellX rng b < 128 ∧
      0 ≤ anchorCellZ rng b ∧ anchorCellZ rng b < 128)
  · simp only [if_pos hc] at hr
    rw [List.mem_map] at hr
    obtain ⟨jj, _, rfl⟩ := hr
    rfl
  · simp only [if_neg hc] at hr
    exact absurd hr (List.not_mem_nil r)

theorem clusterRocks_rngC_eval :
    (clusterRocks dataSlope rngC 0).1 =
      [Rock.mk 1 (127/2) 0 1, Rock.mk 1 (127/2) 0 1, Rock.mk 1 (127/2) 0 1] := by
  have hx : anchorCellX rngC 0 = 63 := by with_unfolding_all decide
  have hz : anchorCellZ rngC 0 = 63 := by with_unfolding_all decide
  have hn : (qfloor (rngC 2 * 5)).toNat + 3 = 3 := by with_unfolding_all decide
  unfold clusterRocks
  rw [if_pos (by rw [hx, hz]; norm_num)]
  simp only [hn, hx, hz]
  have hrock : ∀ jj, jj < 3 →
      (Rock.mk (((rngC 0 * 200 - 100 : ℚ) : ℝ) +
          Real.cos ((rngC (0 + 3 + 8 * jj) : ℝ) * (2 * Real.pi)) *
            ((rngC (0 + 3 + 8 * jj + 1) : ℝ) * 3 + 1))
        (dataSlope 63 63 + ((rngC (0 + 3 + 8 * jj + 4) : ℝ) * 2 + 1) / 2)
        (((rngC (0 + 1) * 200 - 100 : ℚ) : ℝ) +
          Real.sin ((rngC (0 + 3 + 8 * jj) : ℝ) * (2 * Real.pi)) *
            ((rngC (0 + 3 + 8 * jj + 1) : ℝ) * 3 + 1))
        ((rngC (0 + 3 + 8 * jj + 4) : ℝ) * 2 + 1)) = Rock.mk 1 (127/2) 0 1 := by
    intro jj hjj
    have e0 : rngC 0 = 1/2 := rfl
    have e1 : rngC (0 + 1) = 1/2 := rfl
    have ea : rngC (0 + 3 + 8 * jj) = 0 := by simp [rngC]; omega
    have eb : rngC (0 + 3 + 8 * jj + 1) = 0 := by simp [rngC]
    have ec : rngC (0 + 3 + 8 * jj + 4) = 0 := by simp [rngC]
    rw [e0, e1, ea, eb, ec]
    simp [dataSlope]
    norm_num
  rw [show List.range 3 = [0, 1, 2] from rfl]
  simp only [List.map_cons, List.map_nil]
  rw [hrock 0 (by norm_num), hrock 1 (by norm_num), hrock 2 (by norm_num)]

/-- Witness for C9: the first member of the concrete cluster is seated at the anchor
height 63 plus scale/2. -/
theorem clusterRocks_seated_at_anchor_height_wit :
    (Rock.mk 1 (127/2) 0 1).y =
      dataSlope (anchorCellZ rngC 0) (anchorCellX rngC 0) +
        (Rock.mk 1 (127/2) 0 1).scale / 2 :=
  clusterRocks_seated_at_anchor_height dataSlope rngC 0 (Rock.mk 1 (127/2) 0 1)
    (by rw [clusterRocks_rngC_eval]; simp)

/-- C9 counterexample: on the sloped terrain data(z, x) = x, the concrete cluster
anchors at world (0, 0) — grid cell (63, 63), height 63 — and its first member sits at
world x = 1, whose own grid cell column is 64 with terrain height 64: the member's y is
63 + 1/2 (the shared anchor height), not 64 + 1/2 (the terrain height at the member's
own (x, z) plus scale/2) — members do not independently re-query the terrain. -/
theorem clusterRocks_not_own_height_cex :
    (clusterRocks dataSlope rngC 0).1.head? = some (Rock.mk 1 (127/2) 0 1) ∧
    qfloor ((((1 : ℚ)) + 100) * 127 / 200) = 64 ∧
    (Rock.mk 1 (127/2) 0 1).y ≠ dataSlope 63 64 + (Rock.mk 1 (127/2) 0 1).scale / 2 := by
  refine ⟨by rw [clusterRocks_rngC_eval]; rfl, by with_unfolding_all decide, ?_⟩
  simp only [dataSlope]
  norm_num
